import Mathlib

/-!
# Bond valuation engine — shallow embedding and verification

This file embeds the bond-valuation engine of the repository
(`src/services/bond-valuation/src/`) in Lean 4 and proves or refutes the
frozen claims about it.

Modelling conventions:
* Python `datetime.date` is embedded as a `Date` structure of integers; only
  calendar-valid dates are constructible in Python, so theorems that need it
  take a `Date.Valid` hypothesis.  Python date comparison is lexicographic
  on (year, month, day).
* Python floats are idealised as exact rationals (`ℚ`); the single float
  power `(1 + ytm / m) ** t` in `regular.py`, whose exponent is in general
  not an integer, is idealised as real exponentiation (`Real.rpow`), so the
  regular-coupon pricing functions live over `ℝ`.
* Fallible code is modelled with `Except CalcError`: a Python
  `ZeroDivisionError` is `CalcError.divByZero`, and the two `RuntimeError`s
  of `newton_raphson` are `CalcError.zeroDerivative` and
  `CalcError.nonConvergence`.
-/

deriving instance DecidableEq for Except

/-! ## Dates (embedding of `datetime.date` and `dateutil.relativedelta`) -/

/-- A calendar date: the `datetime.date` triple `(year, month, day)`. -/
structure Date where
  year : ℤ
  month : ℤ
  day : ℤ
deriving DecidableEq, Repr

/-- Python can only construct calendar-valid dates. -/
def Date.Valid (d : Date) : Prop :=
  1 ≤ d.month ∧ d.month ≤ 12 ∧ 1 ≤ d.day ∧ d.day ≤ 31

instance (d : Date) : Decidable d.Valid := by
  unfold Date.Valid; infer_instance

/-- Gregorian leap-year test. -/
def isLeapYear (y : ℤ) : Bool :=
  (y % 4 == 0 && y % 100 != 0) || y % 400 == 0

/-- Number of days in a month of the Gregorian calendar. -/
def daysInMonth (y m : ℤ) : ℤ :=
  if m = 2 then (if isLeapYear y then 29 else 28)
  else if m = 4 ∨ m = 6 ∨ m = 9 ∨ m = 11 then 30
  else 31

/-- Day number of a date (proleptic Gregorian, days since 0000-03-01 era
scheme); differences of `rataDie` equal Python's `(end - start).days`. -/
def rataDie (dt : Date) : ℤ :=
  let y : ℤ := if dt.month ≤ 2 then dt.year - 1 else dt.year
  let m : ℤ := if dt.month ≤ 2 then dt.month + 12 else dt.month
  365 * y + y.fdiv 4 - y.fdiv 100 + y.fdiv 400 + (153 * (m - 3) + 2).fdiv 5 + dt.day

/-- Linear month index `12*year + month`; `subMonths` shifts it. -/
def monthIndex (dt : Date) : ℤ := 12 * dt.year + dt.month

/-- `d - relativedelta(months := k)` from `dateutil`: shift the month index
down by `k`, normalise the month into `[1, 12]`, clamp the day to the length
of the resulting month. -/
def subMonths (dt : Date) (k : ℤ) : Date :=
  let m0 : ℤ := dt.month - 1 - k
  let y' : ℤ := dt.year + m0 / 12
  let m' : ℤ := m0 % 12 + 1
  ⟨y', m', min dt.day (daysInMonth y' m')⟩

/-- Order-embedding of dates into lexicographic integer triples; Python
compares dates lexicographically by (year, month, day). -/
def Date.toLexTriple (dt : Date) : ℤ ×ₗ (ℤ ×ₗ ℤ) :=
  toLex (dt.year, toLex (dt.month, dt.day))

theorem Date.toLexTriple_injective : Function.Injective Date.toLexTriple := by
  intro a b h
  unfold Date.toLexTriple at h
  have h' := toLex.injective h
  cases a; cases b
  simp only [Prod.mk.injEq] at h'
  obtain ⟨h1, h2⟩ := h'
  have h2' := toLex.injective h2
  simp_all

instance : LinearOrder Date := LinearOrder.lift' Date.toLexTriple Date.toLexTriple_injective

theorem Date.lt_def (a b : Date) :
    a < b ↔ a.year < b.year ∨ (a.year = b.year ∧
      (a.month < b.month ∨ (a.month = b.month ∧ a.day < b.day))) := by
  show a.toLexTriple < b.toLexTriple ↔ _
  unfold Date.toLexTriple
  rw [Prod.Lex.lt_iff, Prod.Lex.lt_iff]

theorem Date.le_def (a b : Date) :
    a ≤ b ↔ a.year < b.year ∨ (a.year = b.year ∧
      (a.month < b.month ∨ (a.month = b.month ∧ a.day ≤ b.day))) := by
  show a.toLexTriple ≤ b.toLexTriple ↔ _
  unfold Date.toLexTriple
  rw [Prod.Lex.le_iff, Prod.Lex.le_iff]

-- Sanity checks of the day-number function on known date differences.
theorem rataDie_sanity_halfyear :
    rataDie ⟨2025, 7, 1⟩ - rataDie ⟨2025, 1, 1⟩ = 181 := by decide

theorem rataDie_sanity_leap :
    rataDie ⟨2024, 3, 1⟩ - rataDie ⟨2024, 2, 28⟩ = 2 ∧
    rataDie ⟨2025, 3, 1⟩ - rataDie ⟨2025, 2, 28⟩ = 1 ∧
    rataDie ⟨2000, 3, 1⟩ - rataDie ⟨2000, 2, 28⟩ = 2 ∧
    rataDie ⟨1900, 3, 1⟩ - rataDie ⟨1900, 2, 28⟩ = 1 ∧
    rataDie ⟨2025, 1, 1⟩ - rataDie ⟨2024, 1, 1⟩ = 366 := by decide

/-! ## Domain types (embedding of `types.py`) -/

/-- Day-count conventions (`class DayCount(Enum)`). -/
inductive DayCount where
  | ACT_ACT_ICMA
  | ACT_365F
  | ACT_360
  | E30_360
  | US_30_360
deriving DecidableEq, Repr

/-- Coupon frequencies (`class Frequency(Enum)`); values are payments/year. -/
inductive Frequency where
  | ANNUAL
  | SEMI_ANNUAL
  | QUARTERLY
  | MONTHLY
deriving DecidableEq, Repr

/-- The `.value` of the frequency enum member. -/
def Frequency.value : Frequency → ℕ
  | .ANNUAL => 1
  | .SEMI_ANNUAL => 2
  | .QUARTERLY => 4
  | .MONTHLY => 12

/-- Stub positions (`class StubPosition(Enum)`, currently unused). -/
inductive StubPosition where
  | NONE
  | SHORT_FIRST
  | LONG_FIRST
  | SHORT_LAST
  | LONG_LAST
deriving DecidableEq, Repr

/-- Bond types (`class BondType(Enum)`). -/
inductive BondType where
  | DISCOUNTED
  | INTEREST_AT_MATURITY
  | REGULAR
deriving DecidableEq, Repr

/-- The immutable bond specification (`@dataclass(frozen=True) class BondSpec`). -/
structure BondSpec where
  settlement : Date
  maturity : Date
  issue_date : Option Date := none
  face : ℚ := 100
  coupon_rate : ℚ := 0
  frequency : Frequency := .SEMI_ANNUAL
  day_count : DayCount := .ACT_ACT_ICMA
  eom_rule : Bool := true
  stub_position : StubPosition := .NONE
  first_coupon : Option Date := none
  last_coupon : Option Date := none
  bond_type : BondType := .REGULAR
deriving DecidableEq, Repr

/-- Pricing result (`@dataclass(frozen=True) class PricingResult`); generic in
the number type so that the rational and real calculators share it. -/
structure PricingResult (α : Type) where
  clean : α
  dirty : α
  accrued : α
  ytm : α
deriving DecidableEq, Repr

/-- Cashflow kind tags (the `type` strings of `Cashflow`). -/
inductive CFKind where
  | coupon
  | redemption
  | interest
deriving DecidableEq, Repr

/-- A single cashflow (`@dataclass(frozen=True) class Cashflow`). -/
structure Cashflow where
  date : Date
  amount : ℚ
  kind : CFKind
deriving DecidableEq, Repr

/-- Failure modes of the engine: Python's `ZeroDivisionError` and the two
`RuntimeError`s raised by `newton_raphson`. -/
inductive CalcError where
  | divByZero
  | zeroDerivative
  | nonConvergence
deriving DecidableEq, Repr

/-- Division as Python performs it: raising on a zero denominator. -/
def safeDiv (a b : ℚ) : Except CalcError ℚ :=
  if b = 0 then .error .divByZero else .ok (a / b)

/-! ## Day-count year fractions (embedding of `daycount_local.py`) -/

/-- `_act_360`: actual days / 360. -/
def act_360 (start stop : Date) : ℚ :=
  ((rataDie stop - rataDie start : ℤ) : ℚ) / 360

/-- `_act_365f`: actual days / 365. -/
def act_365f (start stop : Date) : ℚ :=
  ((rataDie stop - rataDie start : ℤ) : ℚ) / 365

/-- `_act_act_icma`: the simplified fixed-divisor approximation, days / 365.25. -/
def act_act_icma (start stop : Date) : ℚ :=
  ((rataDie stop - rataDie start : ℤ) : ℚ) / 365.25

/-- `_30e_360`: European 30/360, day-of-month clamped to 30 on both ends. -/
def e30_360 (start stop : Date) : ℚ :=
  let d1 := min start.day 30
  let d2 := min stop.day 30
  ((360 * (stop.year - start.year) + 30 * (stop.month - start.month) + (d2 - d1) : ℤ) : ℚ) / 360

/-- `_30_360`: US 30/360 (bond basis). -/
def us_30_360 (start stop : Date) : ℚ :=
  let d1 : ℤ := if start.day = 31 then 30 else start.day
  let d2 : ℤ := if stop.day = 31 ∧ d1 ≥ 30 then 30 else stop.day
  ((360 * (stop.year - start.year) + 30 * (stop.month - start.month) + (d2 - d1) : ℤ) : ℚ) / 360

/-- `calculate_year_fraction`: dispatch on the convention.  The Python
`else: raise ValueError` branch is unreachable over the closed enum. -/
def calculate_year_fraction (start stop : Date) (convention : DayCount) : ℚ :=
  match convention with
  | .ACT_360 => act_360 start stop
  | .ACT_365F => act_365f start stop
  | .ACT_ACT_ICMA => act_act_icma start stop
  | .E30_360 => e30_360 start stop
  | .US_30_360 => us_30_360 start stop

theorem calculate_year_fraction_self (d : Date) (c : DayCount) :
    calculate_year_fraction d d c = 0 := by
  cases c <;>
    simp only [calculate_year_fraction, act_360, act_365f, act_act_icma, e30_360, us_30_360] <;>
    by_cases h : d.day = 31 <;> simp [h]

/-! ## Newton-Raphson solver (embedding of `newton_raphson` in `base.py`) -/

/-- Default tolerance `tol = 1e-10`. -/
def tolDefault : ℚ := 1 / 10 ^ 10

/-- Default `max_iter = 100`. -/
def maxIterDefault : ℕ := 100

/-- `newton_raphson(f, df, x0, tol, max_iter)`.  The loop counter is the
fuel `maxIter`; exhausting it raises the non-convergence error, a zero
derivative raises the zero-derivative error, and the updated `x` is
returned as soon as the absolute step drops below `tol`.  `f` and `df` are
`Except`-valued because the callables passed by the calculators can raise
(division by zero), and such an exception propagates. -/
def newton_raphson {α : Type} [LinearOrderedField α]
    [DecidableEq α] [DecidableRel fun a b : α => a < b]
    (f df : α → Except CalcError α) (x tol : α) : ℕ → Except CalcError α
  | 0 => .error .nonConvergence
  | n + 1 => do
    let fx ← f x
    let dfx ← df x
    if dfx = 0 then
      .error .zeroDerivative
    else
      let step := fx / dfx
      let x' := x - step
      if |step| < tol then .ok x'
      else newton_raphson f df x' tol n

/-! ## Schedule builder (embedding of `schedule/builder.py`) -/

theorem monthIndex_subMonths (d : Date) (k : ℤ) :
    monthIndex (subMonths d k) = monthIndex d - k := by
  simp only [monthIndex, subMonths]
  omega

theorem subMonths_month_bounds (d : Date) (k : ℤ) :
    1 ≤ (subMonths d k).month ∧ (subMonths d k).month ≤ 12 := by
  simp only [subMonths]
  omega

theorem daysInMonth_pos (y m : ℤ) : 1 ≤ daysInMonth y m := by
  unfold daysInMonth
  split_ifs <;> simp

theorem subMonths_day_bounds (d : Date) (k : ℤ) (hd : 1 ≤ d.day) :
    1 ≤ (subMonths d k).day := by
  unfold subMonths
  have := daysInMonth_pos (d.year + (d.month - 1 - k) / 12) ((d.month - 1 - k) % 12 + 1)
  simp
  omega

/-- Subtracting at least one month strictly decreases a date whose month
field is calendar-valid. -/
theorem subMonths_lt (d : Date) (k : ℤ) (hk : 1 ≤ k)
    (hm1 : 1 ≤ d.month) (hm2 : d.month ≤ 12) : subMonths d k < d := by
  have hidx : monthIndex (subMonths d k) = monthIndex d - k := monthIndex_subMonths d k
  have hb := subMonths_month_bounds d k
  rw [Date.lt_def]
  unfold monthIndex at hidx
  omega

/-- The backward walk of `ScheduleBuilder.build`: starting from `d`, this is
the list of successive `d - relativedelta(months=months)` dates appended
while they stay strictly after the stop line.  The `months = 0` guard is
unreachable (the frequency enum makes `months ∈ {12, 6, 3, 1}`) and exists
only to make the recursion well-founded. -/
def buildLoop (stop : Date) (months : ℕ) (d : Date) : List Date :=
  if hm : months = 0 then []
  else
    let d' := subMonths d months
    if d' ≤ stop then [] else d' :: buildLoop stop months d'
termination_by (monthIndex d - 12 * stop.year).toNat
decreasing_by
  rename_i hlt
  have hidx : monthIndex (subMonths d (months : ℤ)) = monthIndex d - (months : ℤ) :=
    monthIndex_subMonths d months
  have hb := subMonths_month_bounds d (months : ℤ)
  have hys : stop.year ≤ (subMonths d (months : ℤ)).year := by
    have h' : stop < subMonths d (months : ℤ) := lt_of_not_le hlt
    rw [Date.lt_def] at h'
    omega
  have hmi : 12 * stop.year + 1 ≤ monthIndex (subMonths d (months : ℤ)) := by
    unfold monthIndex
    omega
  omega

/-- `ScheduleBuilder.build(spec)`.  `months = 12 // frequency`; the walk
starts at maturity; override coupon dates are appended when absent
(sequentially, as in the Python) and the result is sorted ascending. -/
def build (spec : BondSpec) : List Date :=
  if spec.frequency.value ≤ 0 then [spec.maturity]
  else
    let months : ℕ := 12 / spec.frequency.value
    let stop_line : Date := spec.issue_date.getD spec.settlement
    let l0 : List Date := spec.maturity :: buildLoop stop_line months spec.maturity
    let l1 : List Date :=
      match spec.first_coupon with
      | some fc => if fc ∈ l0 then l0 else l0 ++ [fc]
      | none => l0
    let l2 : List Date :=
      match spec.last_coupon with
      | some lc => if lc ∈ l1 then l1 else l1 ++ [lc]
      | none => l1
    l2.insertionSort (· ≤ ·)

-- Sanity: semi-annual schedule from a one-year bond.
theorem build_sanity :
    build { settlement := ⟨2025, 1, 1⟩, maturity := ⟨2026, 1, 1⟩ } =
      [⟨2025, 7, 1⟩, ⟨2026, 1, 1⟩] := by
  simp +decide [build, buildLoop, subMonths]

/-! ## Accrued interest (embedding of `BondCalculator.accrued_interest` in `base.py`) -/

/-- Python `max(list, default=None)`. -/
def maxD : List Date → Option Date
  | [] => none
  | d :: t => match maxD t with | none => some d | some m => some (max d m)

/-- Python `min(list, default=None)`. -/
def minD : List Date → Option Date
  | [] => none
  | d :: t => match minD t with | none => some d | some m => some (min d m)

/-- `BondCalculator.accrued_interest(spec)`, with the local day-count
implementation (`calculate_year_fraction`) injected as `self._yf`.  The
division `yf_accr / yf_period` can raise. -/
def accrued_interest (spec : BondSpec) : Except CalcError ℚ :=
  match spec.bond_type with
  | .REGULAR =>
    let schedule := build spec
    let prev? := maxD (schedule.filter (· ≤ spec.settlement))
    let next? := minD (schedule.filter (spec.settlement < ·))
    match prev?, next? with
    | some prev, some next =>
      let yf_period := calculate_year_fraction prev next spec.day_count
      let yf_accr := calculate_year_fraction prev spec.settlement spec.day_count
      let coupon := spec.face * spec.coupon_rate / (spec.frequency.value : ℚ)
      do
        let q ← safeDiv yf_accr yf_period
        pure (coupon * q)
    | _, _ => pure 0
  | .INTEREST_AT_MATURITY =>
    let anchor := spec.issue_date.getD spec.settlement
    let yf_accr := calculate_year_fraction anchor spec.settlement spec.day_count
    pure (spec.face * spec.coupon_rate * yf_accr)
  | .DISCOUNTED => pure 0

/-! ## Discounted calculator (embedding of `discounted.py`) -/

namespace DiscountedCalculator

/-- `DiscountedCalculator.price_from_yield`: `dirty = face / (1 + ytm*Y)`,
`accrued = 0`, `clean = dirty`. -/
def price_from_yield (spec : BondSpec) (ytm : ℚ) : Except CalcError (PricingResult ℚ) := do
  let Y := calculate_year_fraction spec.settlement spec.maturity spec.day_count
  let dirty ← safeDiv spec.face (1 + ytm * Y)
  pure { clean := dirty, dirty := dirty, accrued := 0, ytm := ytm }

/-- `DiscountedCalculator.yield_from_price`: closed-form
`y = (face/clean_price - 1) / Y`, then reprice.  The `guess` parameter
(Python default `0.05`) is unused, as in the source. -/
def yield_from_price (spec : BondSpec) (clean_price guess : ℚ) :
    Except CalcError (PricingResult ℚ) := do
  let Y := calculate_year_fraction spec.settlement spec.maturity spec.day_count
  let q ← safeDiv spec.face clean_price
  let y ← safeDiv (q - 1) Y
  price_from_yield spec y

/-- `DiscountedCalculator.cashflows`. -/
def cashflows (spec : BondSpec) : List Cashflow :=
  [⟨spec.maturity, spec.face, .redemption⟩]

end DiscountedCalculator

/-! ## Interest-at-maturity calculator (embedding of `iam.py`) -/

namespace InterestAtMaturityCalculator

/-- `InterestAtMaturityCalculator.price_from_yield`. -/
def price_from_yield (spec : BondSpec) (ytm : ℚ) : Except CalcError (PricingResult ℚ) := do
  let coupon_anchor := spec.issue_date.getD spec.settlement
  let Y_coupon := calculate_year_fraction coupon_anchor spec.maturity spec.day_count
  let redemption := spec.face * (1 + spec.coupon_rate * Y_coupon)
  let Y_discount := calculate_year_fraction spec.settlement spec.maturity spec.day_count
  let dirty ← safeDiv redemption (1 + ytm * Y_discount)
  let accrued ← accrued_interest spec
  pure { clean := dirty - accrued, dirty := dirty, accrued := accrued, ytm := ytm }

/-- `InterestAtMaturityCalculator.yield_from_price`: Newton-Raphson on
`f(y) = price_from_yield(spec, y).dirty - (clean_price + accrued)` with the
closed-form derivative.  The Python default guess is `0.05`. -/
def yield_from_price (spec : BondSpec) (clean_price guess : ℚ) :
    Except CalcError (PricingResult ℚ) := do
  let accrued ← accrued_interest spec
  let target_dirty := clean_price + accrued
  let f := fun y => (price_from_yield spec y).map (fun r => r.dirty - target_dirty)
  let df := fun y =>
    let coupon_anchor := spec.issue_date.getD spec.settlement
    let Y_coupon := calculate_year_fraction coupon_anchor spec.maturity spec.day_count
    let redemption := spec.face * (1 + spec.coupon_rate * Y_coupon)
    let Y_discount := calculate_year_fraction spec.settlement spec.maturity spec.day_count
    let denom := 1 + y * Y_discount
    safeDiv (-(redemption * Y_discount)) (denom * denom)
  let y_star ← newton_raphson f df guess tolDefault maxIterDefault
  price_from_yield spec y_star

/-- `InterestAtMaturityCalculator.cashflows`. -/
def cashflows (spec : BondSpec) : List Cashflow :=
  let coupon_anchor := spec.issue_date.getD spec.settlement
  let Y_coupon := calculate_year_fraction coupon_anchor spec.maturity spec.day_count
  let interest := spec.face * spec.coupon_rate * Y_coupon
  [⟨spec.maturity, interest, .interest⟩, ⟨spec.maturity, spec.face, .redemption⟩]

end InterestAtMaturityCalculator

/-! ## Regular-coupon calculator (embedding of `regular.py`)

The discount factor `(1 + ytm / m) ** t` has a float exponent
`t = m * yf` that is in general not an integer, so these two functions are
idealised over `ℝ` with real exponentiation (`Real.rpow`). -/

/-- Division over `ℝ` as Python performs it: raising on a zero denominator. -/
noncomputable def safeDivR (a b : ℝ) : Except CalcError ℝ :=
  if b = 0 then .error .divByZero else .ok (a / b)

/-- The `for dt in schedule` accumulation of the dirty price in
`RegularCouponCalculator.price_from_yield` (and `price_y` inside
`yield_from_price`): skip dates at or before settlement, discount
`face*coupon_rate/m` (plus `face` on the final date) by
`(1 + ytm/m) ** (m*yf)`. -/
noncomputable def dirtySumAux (spec : BondSpec) (lastD : Option Date) (ytm : ℝ) :
    List Date → Except CalcError ℝ
  | [] => pure 0
  | dt :: rest =>
    if dt ≤ spec.settlement then dirtySumAux spec lastD ytm rest
    else do
      let m : ℝ := (spec.frequency.value : ℝ)
      let yf : ℚ := calculate_year_fraction spec.settlement dt spec.day_count
      let t : ℝ := m * (yf : ℝ)
      let cf : ℝ := (spec.face : ℝ) * (spec.coupon_rate : ℝ) / m +
        (if some dt = lastD then (spec.face : ℝ) else 0)
      let term ← safeDivR cf ((1 + ytm / m) ^ t)
      let tail ← dirtySumAux spec lastD ytm rest
      pure (term + tail)

namespace RegularCouponCalculator

/-- `RegularCouponCalculator.price_from_yield`. -/
noncomputable def price_from_yield (spec : BondSpec) (ytm : ℝ) :
    Except CalcError (PricingResult ℝ) := do
  let schedule := build spec
  let accrued ← accrued_interest spec
  let dirty ← dirtySumAux spec schedule.getLast? ytm schedule
  pure { clean := dirty - (accrued : ℝ), dirty := dirty, accrued := (accrued : ℝ), ytm := ytm }

/-- `RegularCouponCalculator.yield_from_price`: Newton-Raphson with a
central-difference numerical derivative, step `max(1e-7, |y|*1e-5)`.
The Python default guess is `0.05`. -/
noncomputable def yield_from_price (spec : BondSpec) (clean_price guess : ℝ) :
    Except CalcError (PricingResult ℝ) := do
  let accrued ← accrued_interest spec
  let target_dirty : ℝ := clean_price + (accrued : ℝ)
  let schedule := build spec
  let price_y := fun (y : ℝ) => dirtySumAux spec schedule.getLast? y schedule
  let f := fun (y : ℝ) => (price_y y).map (fun total => total - target_dirty)
  let df := fun (y : ℝ) => do
    let eps : ℝ := max (1 / 10 ^ 7) (|y| * (1 / 10 ^ 5))
    let fp ← f (y + eps)
    let fm ← f (y - eps)
    pure ((fp - fm) / (2 * eps))
  let y_star ← newton_raphson f df guess ((1 : ℝ) / 10 ^ 10) maxIterDefault
  price_from_yield spec y_star

/-- Cashflow list before sorting: one coupon per schedule date, plus the
redemption appended after the coupon on the final date. -/
def flowsAux (spec : BondSpec) (lastD : Option Date) : List Date → List Cashflow
  | [] => []
  | dt :: rest =>
    ⟨dt, spec.face * spec.coupon_rate / (spec.frequency.value : ℚ), .coupon⟩ ::
      ((if some dt = lastD then [⟨dt, spec.face, .redemption⟩] else []) ++
        flowsAux spec lastD rest)

/-- `RegularCouponCalculator.cashflows`: build the flows, then
`sorted(flows, key=lambda c: c.date)`. -/
def cashflows (spec : BondSpec) : List Cashflow :=
  let schedule := build spec
  (flowsAux spec schedule.getLast? schedule).insertionSort (fun a b => a.date ≤ b.date)

end RegularCouponCalculator

/-! ## Response mapping (embedding of `core/mappers.py`) -/

/-- Python 3 `round()` to an integer: round-half-to-even. -/
def roundHalfEven (q : ℚ) : ℤ :=
  let f := ⌊q⌋
  let r := q - (f : ℚ)
  if r < 1 / 2 then f
  else if 1 / 2 < r then f + 1
  else if Even f then f else f + 1

/-- Python `round(x, 6)`. -/
def round6 (q : ℚ) : ℚ := (roundHalfEven (q * 10 ^ 6) : ℚ) / 10 ^ 6

/-- One entry of the response's `cashflows` array:
`{date (ISO-8601), amount, type}`. -/
structure CashflowEntry where
  date : Date
  amount : ℚ
  kind : CFKind
deriving DecidableEq, Repr

/-- The JSON-serialisable body built by `pricing_result_to_response`; absent
optional fields are `none`. -/
structure PricingResponse where
  cleanPrice : ℚ
  dirtyPrice : ℚ
  accruedInterest : ℚ
  yieldValue : ℚ
  version : String
  cashflows : Option (List CashflowEntry)
  nextCouponDate : Option Date
deriving DecidableEq, Repr

/-- `pricing_result_to_response(result, cashflows, version)`.  Python's
`if cashflows:` is false for both `None` and the empty list.  Note that the
`future_cfs` local (named as in the source) filters only on the kind tag:
it does NOT restrict to dates after settlement (settlement is not even a
parameter of the Python function), although the comment in the source says
"first future cashflow". -/
def pricing_result_to_response (result : PricingResult ℚ)
    (cashflows : Option (List Cashflow)) (version : String) : PricingResponse :=
  let cfs := cashflows.getD []
  if cfs = [] then
    { cleanPrice := round6 result.clean, dirtyPrice := round6 result.dirty,
      accruedInterest := round6 result.accrued, yieldValue := round6 result.ytm,
      version := version, cashflows := none, nextCouponDate := none }
  else
    let entries := cfs.map (fun cf => CashflowEntry.mk cf.date (round6 cf.amount) cf.kind)
    let future_cfs := cfs.filter (fun cf => cf.kind = .coupon)
    { cleanPrice := round6 result.clean, dirtyPrice := round6 result.dirty,
      accruedInterest := round6 result.accrued, yieldValue := round6 result.ytm,
      version := version, cashflows := some entries,
      nextCouponDate := (future_cfs.head?).map (fun cf => cf.date) }

/-- Modelled from the spec: "`nextCouponDate` (first future cashflow of kind
coupon)", i.e. the earliest coupon cashflow whose date is strictly after the
settlement date.  This is the specification-side selector that
`pricing_result_to_response` is compared against; it is not in the source. -/
def firstFutureCouponDate (settlement : Date) (flows : List Cashflow) : Option Date :=
  minD ((flows.filter (fun c => c.kind = .coupon ∧ settlement < c.date)).map
    (fun c => c.date))

/-! ## Helper lemmas -/

theorem bind_eq_ok {ε α β : Type} {x : Except ε α} {f : α → Except ε β} {b : β}
    (h : x >>= f = .ok b) : ∃ a, x = .ok a ∧ f a = .ok b := by
  cases x with
  | error e => simp [Bind.bind, Except.bind] at h
  | ok a => exact ⟨a, rfl, by simpa [Bind.bind, Except.bind] using h⟩

theorem yf_eval_act360 {s e : Date} {n : ℤ} (h : rataDie e - rataDie s = n) :
    calculate_year_fraction s e .ACT_360 = (n : ℚ) / 360 := by
  simp only [calculate_year_fraction, act_360, h]

theorem yf_eval_e30 {s e : Date} {n : ℤ}
    (h : 360 * (e.year - s.year) + 30 * (e.month - s.month) +
      (min e.day 30 - min s.day 30) = n) :
    calculate_year_fraction s e .E30_360 = (n : ℚ) / 360 := by
  simp only [calculate_year_fraction, e30_360, h]

/-- A Newton-Raphson call with at least one iteration left fails with the
zero-derivative error as soon as the derivative callable returns 0. -/
theorem newton_zero_step {α : Type} [LinearOrderedField α]
    [DecidableEq α] [DecidableRel fun a b : α => a < b]
    (f df : α → Except CalcError α) (x tol : α) (n : ℕ) (hn : n ≠ 0)
    (v : α) (hf : f x = .ok v) (hdf : df x = .ok 0) :
    newton_raphson f df x tol n = .error .zeroDerivative := by
  cases n with
  | zero => exact absurd rfl hn
  | succ k => simp [newton_raphson, hf, hdf, Bind.bind, Except.bind]

theorem maxD_mem : ∀ {l : List Date} {m : Date}, maxD l = some m → m ∈ l := by
  intro l
  induction l with
  | nil => intro m h; simp [maxD] at h
  | cons d t ih =>
    intro m h
    unfold maxD at h
    cases ht : maxD t with
    | none => rw [ht] at h; simp at h; simp [h]
    | some m' =>
      rw [ht] at h
      simp at h
      rcases max_choice d m' with hc | hc <;> rw [hc] at h
      · simp [h]
      · exact List.mem_cons_of_mem _ (h ▸ ih ht)

theorem minD_mem : ∀ {l : List Date} {m : Date}, minD l = some m → m ∈ l := by
  intro l
  induction l with
  | nil => intro m h; simp [minD] at h
  | cons d t ih =>
    intro m h
    unfold minD at h
    cases ht : minD t with
    | none => rw [ht] at h; simp at h; simp [h]
    | some m' =>
      rw [ht] at h
      simp at h
      rcases min_choice d m' with hc | hc <;> rw [hc] at h
      · simp [h]
      · exact List.mem_cons_of_mem _ (h ▸ ih ht)

/-! ## Claim C10 -/

/-- The bond of claim C10: one day from settlement to maturity, but a
30E/360 year fraction of zero (Jan 30 and Jan 31 both clamp to day 30). -/
def c10spec : BondSpec :=
  { settlement := ⟨2025, 1, 30⟩, maturity := ⟨2025, 1, 31⟩, face := 100,
    coupon_rate := 1/20, frequency := .SEMI_ANNUAL, day_count := .E30_360,
    bond_type := .DISCOUNTED }

/-- C10: there is a valid BondSpec with settlement strictly before maturity
(settlement 2025-01-30, maturity 2025-01-31 under 30E/360) whose year
fraction is 0, and on it `DiscountedCalculator.yield_from_price` divides by
that zero year fraction and fails with the division-by-zero error (Python's
`ZeroDivisionError`) instead of returning a `PricingResult`. -/
theorem C10_discounted_zero_yearfraction_divByZero :
    c10spec.settlement < c10spec.maturity ∧
    c10spec.settlement.Valid ∧ c10spec.maturity.Valid ∧
    calculate_year_fraction c10spec.settlement c10spec.maturity c10spec.day_count = 0 ∧
    DiscountedCalculator.yield_from_price c10spec 98 (1/20) = .error .divByZero := by
  have hY : calculate_year_fraction c10spec.settlement c10spec.maturity c10spec.day_count
      = 0 := by
    show calculate_year_fraction ⟨2025, 1, 30⟩ ⟨2025, 1, 31⟩ .E30_360 = 0
    rw [yf_eval_e30 (n := 0) (by decide)]
    norm_num
  refine ⟨by decide, by decide, by decide, hY, ?_⟩
  unfold DiscountedCalculator.yield_from_price
  rw [hY]
  norm_num [safeDiv, Bind.bind, Except.bind]

/-! ## Claim C5 -/

/-- C5: behaviour of `newton_raphson` on (total) functions `f`, `df`:
(1) with fuel left it takes the step `x - f x / df x`, failing first if
`df x = 0`, and returns the updated point as soon as `|step| < tol`;
(2) exhausted fuel is the non-convergence error;
(3) an identically-zero derivative yields the zero-derivative error whenever
at least one iteration runs (`1 ≤ max_iter`);
(4) the only outcomes are a returned value, the zero-derivative error, or
the non-convergence error — a failure never returns a value. -/
theorem C5_newton_raphson_behaviour :
    (∀ (f df : ℚ → ℚ) (x tol : ℚ) (n : ℕ),
      newton_raphson (fun z => .ok (f z)) (fun z => .ok (df z)) x tol (n + 1) =
        if df x = 0 then .error .zeroDerivative
        else if |f x / df x| < tol then .ok (x - f x / df x)
        else newton_raphson (fun z => .ok (f z)) (fun z => .ok (df z))
          (x - f x / df x) tol n) ∧
    (∀ (f df : ℚ → ℚ) (x tol : ℚ),
      newton_raphson (fun z => .ok (f z)) (fun z => .ok (df z)) x tol 0 =
        .error .nonConvergence) ∧
    (∀ (f : ℚ → ℚ) (x tol : ℚ) (n : ℕ), 1 ≤ n →
      newton_raphson (fun z => .ok (f z)) (fun _ => .ok 0) x tol n =
        .error .zeroDerivative) ∧
    (∀ (f df : ℚ → ℚ) (x tol : ℚ) (n : ℕ),
      (∃ v, newton_raphson (fun z => .ok (f z)) (fun z => .ok (df z)) x tol n = .ok v) ∨
      newton_raphson (fun z => .ok (f z)) (fun z => .ok (df z)) x tol n =
        .error .zeroDerivative ∨
      newton_raphson (fun z => .ok (f z)) (fun z => .ok (df z)) x tol n =
        .error .nonConvergence) := by
  refine ⟨?_, ?_, ?_, ?_⟩
  · intro f df x tol n
    rfl
  · intro f df x tol
    rfl
  · intro f x tol n hn
    cases n with
    | zero => exact absurd hn (by norm_num)
    | succ k =>
      exact newton_zero_step _ _ x tol (k + 1) (Nat.succ_ne_zero k) (f x) rfl rfl
  · intro f df x tol n
    induction n generalizing x with
    | zero => exact Or.inr (Or.inr rfl)
    | succ k ih =>
      by_cases hdf : df x = 0
      · refine Or.inr (Or.inl ?_)
        simp [newton_raphson, hdf, Bind.bind, Except.bind]
      · by_cases hst : |f x / df x| < tol
        · refine Or.inl ⟨x - f x / df x, ?_⟩
          simp [newton_raphson, hdf, hst, Bind.bind, Except.bind]
        · have hred : newton_raphson (fun z => .ok (f z)) (fun z => .ok (df z)) x tol (k + 1)
              = newton_raphson (fun z => .ok (f z)) (fun z => .ok (df z))
                (x - f x / df x) tol k := by
            simp [newton_raphson, hdf, hst, Bind.bind, Except.bind]
          rw [hred]
          exact ih (x - f x / df x)

/-- Witness for C5: the zero-derivative error on `f = id`, `df ≡ 0` at the
default tolerance and iteration cap. -/
theorem C5_witness :
    newton_raphson (fun z : ℚ => .ok z) (fun _ => .ok 0) 1 tolDefault 100 =
      .error .zeroDerivative :=
  C5_newton_raphson_behaviour.2.2.1 (fun z => z) 1 tolDefault 100 (by norm_num)

/-! ## Claim C2 -/

theorem pfyD_invariant (spec : BondSpec) (ytm : ℚ) (r : PricingResult ℚ)
    (h : DiscountedCalculator.price_from_yield spec ytm = .ok r) :
    r.dirty = r.clean + r.accrued := by
  simp only [DiscountedCalculator.price_from_yield] at h
  obtain ⟨d, _, hp⟩ := bind_eq_ok h
  simp only [pure, Except.pure, Except.ok.injEq] at hp
  subst hp
  simp

theorem yfpD_invariant (spec : BondSpec) (p g : ℚ) (r : PricingResult ℚ)
    (h : DiscountedCalculator.yield_from_price spec p g = .ok r) :
    r.dirty = r.clean + r.accrued := by
  simp only [DiscountedCalculator.yield_from_price] at h
  obtain ⟨q, _, h1⟩ := bind_eq_ok h
  obtain ⟨y, _, h2⟩ := bind_eq_ok h1
  exact pfyD_invariant spec y r h2

theorem pfyI_invariant (spec : BondSpec) (ytm : ℚ) (r : PricingResult ℚ)
    (h : InterestAtMaturityCalculator.price_from_yield spec ytm = .ok r) :
    r.dirty = r.clean + r.accrued := by
  simp only [InterestAtMaturityCalculator.price_from_yield] at h
  obtain ⟨d, _, h1⟩ := bind_eq_ok h
  obtain ⟨a, _, h2⟩ := bind_eq_ok h1
  simp only [pure, Except.pure, Except.ok.injEq] at h2
  subst h2
  simp

theorem yfpI_invariant (spec : BondSpec) (p g : ℚ) (r : PricingResult ℚ)
    (h : InterestAtMaturityCalculator.yield_from_price spec p g = .ok r) :
    r.dirty = r.clean + r.accrued := by
  simp only [InterestAtMaturityCalculator.yield_from_price] at h
  obtain ⟨a, _, h1⟩ := bind_eq_ok h
  obtain ⟨y, _, h2⟩ := bind_eq_ok h1
  exact pfyI_invariant spec y r h2

theorem pfyR_invariant (spec : BondSpec) (ytm : ℝ) (r : PricingResult ℝ)
    (h : RegularCouponCalculator.price_from_yield spec ytm = .ok r) :
    r.dirty = r.clean + r.accrued := by
  simp only [RegularCouponCalculator.price_from_yield] at h
  obtain ⟨a, _, h1⟩ := bind_eq_ok h
  obtain ⟨d, _, h2⟩ := bind_eq_ok h1
  simp only [pure, Except.pure, Except.ok.injEq] at h2
  subst h2
  simp

theorem yfpR_invariant (spec : BondSpec) (p g : ℝ) (r : PricingResult ℝ)
    (h : RegularCouponCalculator.yield_from_price spec p g = .ok r) :
    r.dirty = r.clean + r.accrued := by
  simp only [RegularCouponCalculator.yield_from_price] at h
  obtain ⟨a, _, h1⟩ := bind_eq_ok h
  obtain ⟨y, _, h2⟩ := bind_eq_ok h1
  exact pfyR_invariant spec y r h2

/-- C2: every `PricingResult` any calculator returns from `price_from_yield`
or `yield_from_price` satisfies dirty = clean + accrued — exactly, in the
exact-arithmetic idealisation, hence a fortiori within floating-point
tolerance. -/
theorem C2_dirty_eq_clean_plus_accrued :
    (∀ (spec : BondSpec) (ytm : ℚ) (r : PricingResult ℚ),
      DiscountedCalculator.price_from_yield spec ytm = .ok r →
        r.dirty = r.clean + r.accrued) ∧
    (∀ (spec : BondSpec) (p g : ℚ) (r : PricingResult ℚ),
      DiscountedCalculator.yield_from_price spec p g = .ok r →
        r.dirty = r.clean + r.accrued) ∧
    (∀ (spec : BondSpec) (ytm : ℚ) (r : PricingResult ℚ),
      InterestAtMaturityCalculator.price_from_yield spec ytm = .ok r →
        r.dirty = r.clean + r.accrued) ∧
    (∀ (spec : BondSpec) (p g : ℚ) (r : PricingResult ℚ),
      InterestAtMaturityCalculator.yield_from_price spec p g = .ok r →
        r.dirty = r.clean + r.accrued) ∧
    (∀ (spec : BondSpec) (ytm : ℝ) (r : PricingResult ℝ),
      RegularCouponCalculator.price_from_yield spec ytm = .ok r →
        r.dirty = r.clean + r.accrued) ∧
    (∀ (spec : BondSpec) (p g : ℝ) (r : PricingResult ℝ),
      RegularCouponCalculator.yield_from_price spec p g = .ok r →
        r.dirty = r.clean + r.accrued) :=
  ⟨pfyD_invariant, yfpD_invariant, pfyI_invariant, yfpI_invariant,
   pfyR_invariant, yfpR_invariant⟩

/-- A simple discounted bond used to instantiate several witnesses. -/
def cwspec : BondSpec :=
  { settlement := ⟨2025, 1, 1⟩, maturity := ⟨2025, 7, 1⟩, face := 100,
    coupon_rate := 0, frequency := .SEMI_ANNUAL, day_count := .ACT_360,
    bond_type := .DISCOUNTED }

/-- Witness for C2 at a concrete successful pricing call. -/
theorem C2_witness :
    (⟨100, 100, 0, 0⟩ : PricingResult ℚ).dirty =
      (⟨100, 100, 0, 0⟩ : PricingResult ℚ).clean +
        (⟨100, 100, 0, 0⟩ : PricingResult ℚ).accrued :=
  C2_dirty_eq_clean_plus_accrued.1 cwspec 0 ⟨100, 100, 0, 0⟩ (by
    norm_num [cwspec, DiscountedCalculator.price_from_yield, safeDiv, Bind.bind, Except.bind,
      pure, Except.pure])

/-! ## Claim C4 -/

/-- C4: for an interest-at-maturity spec and any yield whose discount
denominator is nonzero (the claim's formula `redemption / (1 + ytm*Y_d)` is
undefined otherwise, and the Python raises `ZeroDivisionError` there),
`price_from_yield` returns dirty = face*(1 + coupon_rate*Y_coupon)/(1 +
ytm*Y_discount) with Y_coupon measured from the issue date (or settlement
when absent) to maturity, accrued = face*coupon_rate*yf(anchor, settlement),
clean = dirty - accrued; and the accrued interest is exactly 0 whenever the
anchor (issue date, or settlement when absent) equals settlement. -/
theorem C4_iam_price_from_yield (spec : BondSpec) (ytm : ℚ)
    (ht : spec.bond_type = .INTEREST_AT_MATURITY)
    (hd : 1 + ytm * calculate_year_fraction spec.settlement spec.maturity spec.day_count ≠ 0) :
    ∃ r, InterestAtMaturityCalculator.price_from_yield spec ytm = .ok r ∧
      r.dirty = spec.face * (1 + spec.coupon_rate *
          calculate_year_fraction (spec.issue_date.getD spec.settlement) spec.maturity
            spec.day_count) /
        (1 + ytm * calculate_year_fraction spec.settlement spec.maturity spec.day_count) ∧
      r.accrued = spec.face * spec.coupon_rate *
        calculate_year_fraction (spec.issue_date.getD spec.settlement) spec.settlement
          spec.day_count ∧
      r.clean = r.dirty - r.accrued ∧
      (spec.issue_date.getD spec.settlement = spec.settlement → r.accrued = 0) := by
  have ha : accrued_interest spec = .ok (spec.face * spec.coupon_rate *
      calculate_year_fraction (spec.issue_date.getD spec.settlement) spec.settlement
        spec.day_count) := by
    unfold accrued_interest
    rw [ht]
    rfl
  refine ⟨PricingResult.mk
      (spec.face * (1 + spec.coupon_rate * calculate_year_fraction
          (spec.issue_date.getD spec.settlement) spec.maturity spec.day_count) /
        (1 + ytm * calculate_year_fraction spec.settlement spec.maturity spec.day_count) -
        spec.face * spec.coupon_rate * calculate_year_fraction
          (spec.issue_date.getD spec.settlement) spec.settlement spec.day_count)
      (spec.face * (1 + spec.coupon_rate * calculate_year_fraction
          (spec.issue_date.getD spec.settlement) spec.maturity spec.day_count) /
        (1 + ytm * calculate_year_fraction spec.settlement spec.maturity spec.day_count))
      (spec.face * spec.coupon_rate * calculate_year_fraction
        (spec.issue_date.getD spec.settlement) spec.settlement spec.day_count)
      ytm, ?_, rfl, rfl, rfl, ?_⟩
  · simp only [InterestAtMaturityCalculator.price_from_yield]
    rw [ha]
    simp only [safeDiv, if_neg hd]
    rfl
  · intro he
    show spec.face * spec.coupon_rate * _ = 0
    rw [he, calculate_year_fraction_self]
    ring

/-- The interest-at-maturity bond used by C4's witness. -/
def c4spec : BondSpec :=
  { settlement := ⟨2025, 1, 1⟩, maturity := ⟨2026, 1, 1⟩,
    issue_date := some ⟨2024, 7, 1⟩, face := 100, coupon_rate := 1/20,
    frequency := .SEMI_ANNUAL, day_count := .ACT_360,
    bond_type := .INTEREST_AT_MATURITY }

/-- Witness for C4 at a concrete interest-at-maturity bond and yield. -/
theorem C4_witness :
    ∃ r, InterestAtMaturityCalculator.price_from_yield c4spec (1/20) = .ok r ∧
      r.clean = r.dirty - r.accrued := by
  obtain ⟨r, h1, _, _, h4, _⟩ := C4_iam_price_from_yield c4spec (1/20) rfl (by
    show (1 : ℚ) + 1/20 * calculate_year_fraction ⟨2025, 1, 1⟩ ⟨2026, 1, 1⟩ .ACT_360 ≠ 0
    rw [yf_eval_act360 (n := 365) (by decide)]
    norm_num)
  exact ⟨r, h1, h4⟩

/-! ## Claim C3 -/

/-- The bond refuting C3 as stated: a valid discounted spec (face `0` is
allowed, the boundary accepts `face >= 0`) on which `yield_from_price`
raises instead of returning the closed-form yield. -/
def c3spec : BondSpec :=
  { settlement := ⟨2025, 1, 1⟩, maturity := ⟨2025, 7, 1⟩, face := 0,
    coupon_rate := 0, frequency := .SEMI_ANNUAL, day_count := .ACT_360,
    bond_type := .DISCOUNTED }

/-- Counterexample to C3 as stated: on the valid spec `c3spec`
(settlement < maturity, face 0 ≥ 0) with clean price 98,
`DiscountedCalculator.yield_from_price` does not return the closed-form
yield at all — the repricing step divides by `1 + y*Y = face/price = 0` and
the call fails with the division-by-zero error. -/
theorem C3_counterexample :
    c3spec.settlement < c3spec.maturity ∧
    c3spec.settlement.Valid ∧ c3spec.maturity.Valid ∧ (0 : ℚ) ≤ c3spec.face ∧
    calculate_year_fraction c3spec.settlement c3spec.maturity c3spec.day_count ≠ 0 ∧
    DiscountedCalculator.yield_from_price c3spec 98 (1/20) = .error .divByZero := by
  have hY : calculate_year_fraction c3spec.settlement c3spec.maturity c3spec.day_count
      = 181/360 := by
    show calculate_year_fraction ⟨2025, 1, 1⟩ ⟨2025, 7, 1⟩ .ACT_360 = 181/360
    rw [yf_eval_act360 (n := 181) (by decide)]
    norm_num
  refine ⟨by decide, by decide, by decide, by norm_num [c3spec], by rw [hY]; norm_num, ?_⟩
  simp only [DiscountedCalculator.yield_from_price, DiscountedCalculator.price_from_yield,
    hY]
  norm_num [c3spec, safeDiv, Bind.bind, Except.bind]

/-- C3 amended (the counterexample forces positive face, and the formula's
own divisions force nonzero price and year fraction): for a discounted bond
with `Y ≠ 0`, `clean_price ≠ 0` and `face ≠ 0`, `yield_from_price` returns
the closed-form yield `y = (face/price - 1)/Y` (no Newton-Raphson call
appears in its definition), its accrued interest is 0 — as it is in every
`price_from_yield` result — and repricing at `y` reproduces the given clean
price exactly. -/
theorem yfpD_closed_form (spec : BondSpec) (p g : ℚ)
    (hY : calculate_year_fraction spec.settlement spec.maturity spec.day_count ≠ 0)
    (hp : p ≠ 0) (hf : spec.face ≠ 0) :
    (∃ r, DiscountedCalculator.yield_from_price spec p g = .ok r ∧
      r.ytm = (spec.face / p - 1) /
        calculate_year_fraction spec.settlement spec.maturity spec.day_count ∧
      r.accrued = 0 ∧ r.clean = p ∧ r.dirty = p) ∧
    (∀ (ytm : ℚ) (r : PricingResult ℚ),
      DiscountedCalculator.price_from_yield spec ytm = .ok r → r.accrued = 0) := by
  constructor
  · set Y := calculate_year_fraction spec.settlement spec.maturity spec.day_count with hYdef
    have hfp : spec.face / p ≠ 0 := div_ne_zero hf hp
    have hden : 1 + (spec.face / p - 1) / Y * Y = spec.face / p := by
      rw [div_mul_cancel₀ _ hY]; ring
    have hpp : spec.face / (spec.face / p) = p := by
      field_simp
    refine ⟨PricingResult.mk p p 0 ((spec.face / p - 1) / Y), ?_, rfl, rfl, rfl, rfl⟩
    simp only [DiscountedCalculator.yield_from_price, DiscountedCalculator.price_from_yield,
      safeDiv, if_neg hp, if_neg hY, Bind.bind, Except.bind, ← hYdef]
    rw [hden, if_neg hfp, hpp]
    rfl
  · intro ytm r h
    simp only [DiscountedCalculator.price_from_yield] at h
    obtain ⟨d, _, hpr⟩ := bind_eq_ok h
    simp only [pure, Except.pure, Except.ok.injEq] at hpr
    subst hpr
    rfl

/-- C3 amended (the counterexample forces a nonzero face, and the claimed
formula's own divisions force a nonzero price and year fraction): for every
discounted bond with `Y = year_fraction(settlement, maturity) ≠ 0`,
`clean_price ≠ 0` and `face ≠ 0`, `yield_from_price` returns the closed-form
yield `y = (face/price - 1)/Y` (its definition contains no `newton_raphson`
call — no root-finding iteration), its result carries accrued interest 0 —
as does every `price_from_yield` result — and repricing at that yield
reproduces the given clean price exactly (full precision). -/
theorem C3_discounted_closed_form (spec : BondSpec) (p g : ℚ)
    (hY : calculate_year_fraction spec.settlement spec.maturity spec.day_count ≠ 0)
    (hp : p ≠ 0) (hf : spec.face ≠ 0) :
    (∃ r, DiscountedCalculator.yield_from_price spec p g = .ok r ∧
      r.ytm = (spec.face / p - 1) /
        calculate_year_fraction spec.settlement spec.maturity spec.day_count ∧
      r.accrued = 0 ∧ r.clean = p ∧ r.dirty = p) ∧
    (∀ (ytm : ℚ) (r : PricingResult ℚ),
      DiscountedCalculator.price_from_yield spec ytm = .ok r → r.accrued = 0) :=
  yfpD_closed_form spec p g hY hp hf

/-- Witness for C3's amended statement at a concrete discounted bond. -/
theorem C3_witness :
    ∃ r, DiscountedCalculator.yield_from_price cwspec 98 (1/20) = .ok r ∧
      r.accrued = 0 ∧ r.clean = 98 := by
  obtain ⟨r, h1, _, h3, h4, _⟩ :=
    (C3_discounted_closed_form cwspec 98 (1/20)
      (by
        show calculate_year_fraction ⟨2025, 1, 1⟩ ⟨2025, 7, 1⟩ .ACT_360 ≠ 0
        rw [yf_eval_act360 (n := 181) (by decide)]
        norm_num)
      (by norm_num) (by norm_num [cwspec])).1
  exact ⟨r, h1, h3, h4⟩

/-! ## Claim C1 -/

theorem ok_bind_eval {ε α β : Type} (a : α) (f : α → Except ε β) :
    (Except.ok a : Except ε α) >>= f = f a := rfl

theorem error_bind_eval {ε α β : Type} (e : ε) (f : α → Except ε β) :
    (Except.error e : Except ε α) >>= f = .error e := rfl

/-- The bond refuting C1 as stated: a valid interest-at-maturity spec whose
30E/360 discount year fraction is 0, so that `price_from_yield` succeeds but
the derivative passed to Newton-Raphson is 0 and `yield_from_price` raises
instead of recovering any yield. -/
def c1spec : BondSpec :=
  { settlement := ⟨2025, 1, 30⟩, maturity := ⟨2025, 1, 31⟩, face := 100,
    coupon_rate := 1/20, frequency := .SEMI_ANNUAL, day_count := .E30_360,
    bond_type := .INTEREST_AT_MATURITY }

/-- Counterexample to C1 as stated: on the valid spec `c1spec` and yield
0.05, `price_from_yield` succeeds with clean price 100, but applying
`yield_from_price` to that clean price raises the zero-derivative
Newton-Raphson error — no yield at all is recovered, hence none within
1e-8. -/
theorem C1_counterexample :
    c1spec.settlement < c1spec.maturity ∧
    c1spec.settlement.Valid ∧ c1spec.maturity.Valid ∧
    InterestAtMaturityCalculator.price_from_yield c1spec (1/20) =
      .ok ⟨100, 100, 0, 1/20⟩ ∧
    InterestAtMaturityCalculator.yield_from_price c1spec 100 (1/20) =
      .error .zeroDerivative := by
  have hyf0 : calculate_year_fraction ⟨2025, 1, 30⟩ ⟨2025, 1, 31⟩ .E30_360 = 0 := by
    rw [yf_eval_e30 (n := 0) (by decide)]
    norm_num
  have ha : accrued_interest c1spec = .ok 0 := by
    unfold accrued_interest
    rw [show c1spec.bond_type = .INTEREST_AT_MATURITY from rfl]
    show Except.ok (c1spec.face * c1spec.coupon_rate *
      calculate_year_fraction ⟨2025, 1, 30⟩ ⟨2025, 1, 30⟩ .E30_360) = .ok 0
    rw [calculate_year_fraction_self]
    norm_num
  have hpfy : InterestAtMaturityCalculator.price_from_yield c1spec (1/20) =
      .ok ⟨100, 100, 0, 1/20⟩ := by
    simp only [InterestAtMaturityCalculator.price_from_yield]
    rw [ha]
    show (safeDiv (c1spec.face * (1 + c1spec.coupon_rate *
        calculate_year_fraction ⟨2025, 1, 30⟩ ⟨2025, 1, 31⟩ .E30_360))
        (1 + 1/20 * calculate_year_fraction ⟨2025, 1, 30⟩ ⟨2025, 1, 31⟩ .E30_360) >>= _) = _
    rw [hyf0]
    norm_num [c1spec, safeDiv, ok_bind_eval]
  refine ⟨by decide, by decide, by decide, hpfy, ?_⟩
  simp only [InterestAtMaturityCalculator.yield_from_price]
  rw [ha, ok_bind_eval]
  rw [newton_zero_step _ _ _ _ _ (by decide : (maxIterDefault : ℕ) ≠ 0) 0
    (by
      rw [hpfy]
      show Except.ok ((100 : ℚ) - (100 + 0)) = .ok 0
      norm_num)
    (by
      show safeDiv _ _ = .ok 0
      rw [show calculate_year_fraction (c1spec.issue_date.getD c1spec.settlement)
          c1spec.maturity c1spec.day_count = 0 from hyf0,
        show calculate_year_fraction c1spec.settlement c1spec.maturity c1spec.day_count = 0
          from hyf0]
      norm_num [safeDiv])]
  rfl

/-- C1 amended: the round-trip law fails in general (see the counterexample:
for IAM — and likewise RegularCoupon — `yield_from_price` can raise a
Newton-Raphson error on a valid spec whose `price_from_yield` succeeded, and
at a pole of the discount factor `price_from_yield` itself raises).  What
holds is the Discounted variant's law: whenever the computations are defined
(`Y ≠ 0`, `face ≠ 0`, `1 + y*Y ≠ 0`), `price_from_yield` then
`yield_from_price` on the resulting clean price recovers the original yield
exactly — in particular within 1e-8. -/
theorem C1_discounted_roundtrip (spec : BondSpec) (y g : ℚ)
    (hY : calculate_year_fraction spec.settlement spec.maturity spec.day_count ≠ 0)
    (hf : spec.face ≠ 0)
    (hden : 1 + y * calculate_year_fraction spec.settlement spec.maturity spec.day_count ≠ 0) :
    ∃ r r', DiscountedCalculator.price_from_yield spec y = .ok r ∧
      DiscountedCalculator.yield_from_price spec r.clean g = .ok r' ∧
      r'.ytm = y ∧ r'.clean = r.clean := by
  set Y := calculate_year_fraction spec.settlement spec.maturity spec.day_count with hYdef
  have hpfy : DiscountedCalculator.price_from_yield spec y =
      .ok ⟨spec.face / (1 + y * Y), spec.face / (1 + y * Y), 0, y⟩ := by
    simp only [DiscountedCalculator.price_from_yield, safeDiv, ← hYdef, if_neg hden]
    rfl
  have hP : spec.face / (1 + y * Y) ≠ 0 := div_ne_zero hf hden
  obtain ⟨r', h1, h2, _, h4, _⟩ :=
    (yfpD_closed_form spec (spec.face / (1 + y * Y)) g hY hP hf).1
  refine ⟨_, r', hpfy, h1, ?_, h4⟩
  rw [h2]
  have hface : spec.face / (spec.face / (1 + y * Y)) = 1 + y * Y := by
    field_simp
  rw [hface]
  field_simp

/-- Witness for C1's amended statement: an exact discounted round trip. -/
theorem C1_witness :
    ∃ r r', DiscountedCalculator.price_from_yield cwspec (1/20) = .ok r ∧
      DiscountedCalculator.yield_from_price cwspec r.clean (1/20) = .ok r' ∧
      r'.ytm = 1/20 := by
  obtain ⟨r, r', h1, h2, h3, _⟩ :=
    C1_discounted_roundtrip cwspec (1/20) (1/20)
      (by
        show calculate_year_fraction ⟨2025, 1, 1⟩ ⟨2025, 7, 1⟩ .ACT_360 ≠ 0
        rw [yf_eval_act360 (n := 181) (by decide)]
        norm_num)
      (by norm_num [cwspec])
      (by
        show (1 : ℚ) + 1/20 * calculate_year_fraction ⟨2025, 1, 1⟩ ⟨2025, 7, 1⟩ .ACT_360 ≠ 0
        rw [yf_eval_act360 (n := 181) (by decide)]
        norm_num)
  exact ⟨r, r', h1, h2, h3⟩

/-! ## Claim C7 -/

/-- C7: for a regular-coupon spec, `accrued_interest` brackets settlement by
`prev = max{d in schedule | d ≤ settlement}` and
`next = min{d in schedule | settlement < d}` (so `prev ≤ settlement < next`)
and, when the period year fraction is nonzero (the claim's division is
undefined otherwise and the Python raises there), returns
`(face*coupon_rate/frequency) * (yf(prev, settlement) / yf(prev, next))`;
whenever either side of the bracket does not exist — empty or single-date
schedules, settlement outside the generated range — it returns 0.0 instead
of raising. -/
theorem C7_regular_accrued_interest (spec : BondSpec)
    (ht : spec.bond_type = .REGULAR) :
    (∀ prev next,
      maxD ((build spec).filter (fun d => d ≤ spec.settlement)) = some prev →
      minD ((build spec).filter (fun d => spec.settlement < d)) = some next →
      prev ≤ spec.settlement ∧ spec.settlement < next ∧
      (calculate_year_fraction prev next spec.day_count ≠ 0 →
        accrued_interest spec = .ok
          (spec.face * spec.coupon_rate / (spec.frequency.value : ℚ) *
            (calculate_year_fraction prev spec.settlement spec.day_count /
              calculate_year_fraction prev next spec.day_count)))) ∧
    ((maxD ((build spec).filter (fun d => d ≤ spec.settlement)) = none ∨
      minD ((build spec).filter (fun d => spec.settlement < d)) = none) →
      accrued_interest spec = .ok 0) := by
  constructor
  · intro prev next hprev hnext
    have hpmem := maxD_mem hprev
    have hnmem := minD_mem hnext
    have hple : prev ≤ spec.settlement := by
      have := List.mem_filter.mp hpmem
      exact of_decide_eq_true this.2
    have hnlt : spec.settlement < next := by
      have := List.mem_filter.mp hnmem
      exact of_decide_eq_true this.2
    refine ⟨hple, hnlt, fun hyf => ?_⟩
    unfold accrued_interest
    rw [ht]
    simp only
    rw [hprev, hnext]
    simp only [safeDiv, if_neg hyf, ok_bind_eval]
    rfl
  · intro hcase
    unfold accrued_interest
    rw [ht]
    simp only
    rcases hcase with hc | hc
    · rw [hc]
      rcases hmin : minD ((build spec).filter (fun d => spec.settlement < d)) with _ | m
      · rfl
      · rfl
    · rw [hc]
      rcases hmax : maxD ((build spec).filter (fun d => d ≤ spec.settlement)) with _ | m
      · rfl
      · rfl

/-- The regular-coupon bond used by C7's witness: settlement falls inside
the generated period 2025-01-01 .. 2025-07-01. -/
def c7spec : BondSpec :=
  { settlement := ⟨2025, 2, 1⟩, maturity := ⟨2025, 7, 1⟩,
    issue_date := some ⟨2024, 12, 20⟩, face := 100, coupon_rate := 1/20,
    frequency := .SEMI_ANNUAL, day_count := .ACT_360, bond_type := .REGULAR }

/-- Witness for C7 at a concrete bracketed settlement. -/
theorem C7_witness :
    accrued_interest c7spec = .ok
      (c7spec.face * c7spec.coupon_rate / (c7spec.frequency.value : ℚ) *
        (calculate_year_fraction ⟨2025, 1, 1⟩ c7spec.settlement c7spec.day_count /
          calculate_year_fraction ⟨2025, 1, 1⟩ ⟨2025, 7, 1⟩ c7spec.day_count)) :=
  ((C7_regular_accrued_interest c7spec rfl).1 ⟨2025, 1, 1⟩ ⟨2025, 7, 1⟩
    (by
      have hb : build c7spec = [⟨2025, 1, 1⟩, ⟨2025, 7, 1⟩] := by
        simp +decide [build, buildLoop, subMonths, c7spec]
      rw [hb]
      decide)
    (by
      have hb : build c7spec = [⟨2025, 1, 1⟩, ⟨2025, 7, 1⟩] := by
        simp +decide [build, buildLoop, subMonths, c7spec]
      rw [hb]
      decide)).2.2
    (by
      show calculate_year_fraction ⟨2025, 1, 1⟩ ⟨2025, 7, 1⟩ .ACT_360 ≠ 0
      rw [yf_eval_act360 (n := 181) (by decide)]
      norm_num)

/-! ## Schedule structure lemmas (for C6 and C8) -/

theorem buildLoop_facts (stop : Date) (months : ℕ) (hm : months ≠ 0) :
    ∀ d, 1 ≤ d.month → d.month ≤ 12 →
      List.Chain (fun a b : Date => b < a) d (buildLoop stop months d) ∧
      ∀ x ∈ buildLoop stop months d, stop < x := by
  suffices H : ∀ μ : ℕ, ∀ d : Date, (monthIndex d - 12 * stop.year).toNat = μ →
      1 ≤ d.month → d.month ≤ 12 →
      List.Chain (fun a b : Date => b < a) d (buildLoop stop months d) ∧
      ∀ x ∈ buildLoop stop months d, stop < x by
    exact fun d => H _ d rfl
  intro μ
  induction μ using Nat.strong_induction_on with
  | _ μ ih =>
    intro d hμ h1 h2
    rw [buildLoop]
    rw [dif_neg hm]
    by_cases hle : subMonths d (months : ℤ) ≤ stop
    · rw [if_pos hle]
      exact ⟨List.Chain.nil, by simp⟩
    · rw [if_neg hle]
      have hstop : stop < subMonths d (months : ℤ) := lt_of_not_le hle
      have hmb := subMonths_month_bounds d (months : ℤ)
      have hlt : subMonths d (months : ℤ) < d :=
        subMonths_lt d (months : ℤ)
          (by exact_mod_cast Nat.one_le_iff_ne_zero.mpr hm) h1 h2
      have hdec : (monthIndex (subMonths d (months : ℤ)) - 12 * stop.year).toNat < μ := by
        have hidx := monthIndex_subMonths d (months : ℤ)
        have hys : stop.year ≤ (subMonths d (months : ℤ)).year := by
          rw [Date.lt_def] at hstop
          omega
        have hmi : 12 * stop.year + 1 ≤ monthIndex (subMonths d (months : ℤ)) := by
          unfold monthIndex
          omega
        omega
      obtain ⟨ihc, ihm⟩ := ih _ hdec (subMonths d (months : ℤ)) rfl hmb.1 hmb.2
      refine ⟨List.Chain.cons hlt ihc, ?_⟩
      intro x hx
      rcases List.mem_cons.mp hx with rfl | hx'
      · exact hstop
      · exact ihm x hx'

theorem chain_gt_pairwise {d : Date} {l : List Date}
    (h : List.Chain (fun a b : Date => b < a) d l) :
    List.Pairwise (fun a b : Date => b < a) (d :: l) := by
  induction l generalizing d with
  | nil => simp
  | cons e t ih =>
    cases h with
    | cons hde hc =>
      have hp := ih hc
      refine List.Pairwise.cons ?_ hp
      intro x hx
      rcases List.mem_cons.mp hx with rfl | hx'
      · exact hde
      · exact lt_trans (List.rel_of_pairwise_cons hp hx') hde

theorem build_facts (spec : BondSpec)
    (h1 : 1 ≤ spec.maturity.month) (h2 : spec.maturity.month ≤ 12) :
    (build spec).Nodup ∧ spec.maturity ∈ build spec ∧
    (build spec).Sorted (· ≤ ·) ∧
    ∀ x ∈ build spec, x ≤ spec.maturity ∨
      spec.first_coupon = some x ∨ spec.last_coupon = some x := by
  have hfreq : ¬ (spec.frequency.value ≤ 0) := by
    cases spec.frequency <;> simp [Frequency.value]
  have hm : 12 / spec.frequency.value ≠ 0 := by
    cases spec.frequency <;> simp [Frequency.value]
  rw [build, if_neg hfreq]
  set stop := spec.issue_date.getD spec.settlement with hstop
  set months := 12 / spec.frequency.value with hmonths
  set loop := buildLoop stop months spec.maturity with hloop
  obtain ⟨hchain, _⟩ := buildLoop_facts stop months hm spec.maturity h1 h2
  have hpair : List.Pairwise (fun a b : Date => b < a) (spec.maturity :: loop) :=
    chain_gt_pairwise hchain
  have hl0nd : (spec.maturity :: loop).Nodup :=
    hpair.imp (fun hab => (ne_of_gt hab))
  have hl0le : ∀ x ∈ spec.maturity :: loop, x ≤ spec.maturity := by
    intro x hx
    rcases List.mem_cons.mp hx with rfl | hx'
    · exact le_rfl
    · exact le_of_lt (List.rel_of_pairwise_cons hpair hx')
  set l0 := spec.maturity :: loop with hl0
  set l1 : List Date := match spec.first_coupon with
    | some fc => if fc ∈ l0 then l0 else l0 ++ [fc]
    | none => l0 with hl1
  have hl1nd : l1.Nodup ∧ spec.maturity ∈ l1 ∧
      ∀ x ∈ l1, x ≤ spec.maturity ∨ spec.first_coupon = some x := by
    rw [hl1]
    rcases hfc : spec.first_coupon with _ | fc
    · exact ⟨hl0nd, List.mem_cons_self _ _, fun x hx => Or.inl (hl0le x hx)⟩
    · dsimp only
      by_cases hin : fc ∈ l0
      · rw [if_pos hin]
        exact ⟨hl0nd, List.mem_cons_self _ _, fun x hx => Or.inl (hl0le x hx)⟩
      · rw [if_neg hin]
        refine ⟨?_, List.mem_append_left _ (List.mem_cons_self _ _), ?_⟩
        · rw [List.nodup_append]
          exact ⟨hl0nd, List.nodup_singleton fc, by simpa using hin⟩
        · intro x hx
          rcases List.mem_append.mp hx with hx' | hx'
          · exact Or.inl (hl0le x hx')
          · simp at hx'
            exact Or.inr (by rw [hx'])
  set l2 : List Date := match spec.last_coupon with
    | some lc => if lc ∈ l1 then l1 else l1 ++ [lc]
    | none => l1 with hl2
  have hl2nd : l2.Nodup ∧ spec.maturity ∈ l2 ∧
      ∀ x ∈ l2, x ≤ spec.maturity ∨ spec.first_coupon = some x ∨
        spec.last_coupon = some x := by
    rw [hl2]
    rcases hlc : spec.last_coupon with _ | lc
    · exact ⟨hl1nd.1, hl1nd.2.1,
        fun x hx => (hl1nd.2.2 x hx).imp id Or.inl⟩
    · dsimp only
      by_cases hin : lc ∈ l1
      · rw [if_pos hin]
        exact ⟨hl1nd.1, hl1nd.2.1,
          fun x hx => (hl1nd.2.2 x hx).imp id Or.inl⟩
      · rw [if_neg hin]
        refine ⟨?_, List.mem_append_left _ hl1nd.2.1, ?_⟩
        · rw [List.nodup_append]
          exact ⟨hl1nd.1, List.nodup_singleton lc, by simpa using hin⟩
        · intro x hx
          rcases List.mem_append.mp hx with hx' | hx'
          · exact (hl1nd.2.2 x hx').imp id Or.inl
          · simp at hx'
            exact Or.inr (Or.inr (by rw [hx']))
  have hperm : List.Perm (l2.insertionSort (· ≤ ·)) l2 := List.perm_insertionSort _ _
  refine ⟨hperm.nodup_iff.mpr hl2nd.1, hperm.mem_iff.mpr hl2nd.2.1,
    List.sorted_insertionSort _ _, ?_⟩
  intro x hx
  exact hl2nd.2.2 x (hperm.mem_iff.mp hx)

theorem sorted_getLast?_eq {l : List Date} {x : Date} (hs : l.Sorted (· ≤ ·))
    (hmem : x ∈ l) (hmax : ∀ y ∈ l, y ≤ x) (hnd : l.Nodup) : l.getLast? = some x := by
  induction l with
  | nil => cases hmem
  | cons a t ih =>
    cases t with
    | nil =>
      simp at hmem
      simp [hmem]
    | cons b t' =>
      have hx' : x ∈ b :: t' := by
        rcases List.mem_cons.mp hmem with rfl | h
        · have hab : x ≤ b := List.rel_of_sorted_cons hs b (by simp)
          have hba : b ≤ x := hmax b (by simp)
          have heq : x = b := le_antisymm hab hba
          exact absurd (show x ∈ b :: t' from by rw [heq]; exact List.mem_cons_self b t')
            fun hmem' => (List.nodup_cons.mp hnd).1 hmem' |>.elim
        · exact h
      rw [List.getLast?_cons_cons]
      exact ih hs.of_cons hx' (fun y hy => hmax y (List.mem_cons_of_mem _ hy))
        (List.nodup_cons.mp hnd).2

/-! ## Claim C6 -/

/-- The bond refuting C6 as stated: a valid spec whose explicit last-coupon
override lies after maturity; `build` keeps it, so the schedule's last
element is the override, not the maturity date. -/
def c6spec : BondSpec :=
  { settlement := ⟨2025, 1, 1⟩, maturity := ⟨2025, 7, 1⟩, face := 100,
    coupon_rate := 1/20, frequency := .SEMI_ANNUAL, day_count := .ACT_360,
    last_coupon := some ⟨2025, 12, 1⟩, bond_type := .REGULAR }

/-- Counterexample to C6 as stated: on the valid spec `c6spec`
(maturity 2025-07-01 after settlement, semi-annual frequency, explicit
last-coupon override 2025-12-01) the schedule's last element is the
override date, not `spec.maturity`. -/
theorem C6_counterexample :
    c6spec.settlement < c6spec.maturity ∧
    c6spec.settlement.Valid ∧ c6spec.maturity.Valid ∧
    (build c6spec).getLast? = some ⟨2025, 12, 1⟩ ∧
    (⟨2025, 12, 1⟩ : Date) ≠ c6spec.maturity := by
  have hb : build c6spec = [⟨2025, 7, 1⟩, ⟨2025, 12, 1⟩] := by
    simp +decide [build, buildLoop, subMonths, c6spec]
  exact ⟨by decide, by decide, by decide, by rw [hb]; rfl, by decide⟩

/-- C6 amended (the counterexample forces the override dates to be bounded
by maturity): for every valid BondSpec — maturity a calendar date after
settlement, frequency drawn from the enum {1, 2, 4, 12} — whose explicit
first/last coupon overrides, when supplied, do not lie after maturity,
`ScheduleBuilder.build` returns a strictly increasing sequence of dates
whose last element is `spec.maturity`. -/
theorem C6_schedule_strictly_increasing (spec : BondSpec)
    (hv1 : 1 ≤ spec.maturity.month) (hv2 : spec.maturity.month ≤ 12)
    (hsm : spec.settlement < spec.maturity)
    (hfc : ∀ d, spec.first_coupon = some d → d ≤ spec.maturity)
    (hlc : ∀ d, spec.last_coupon = some d → d ≤ spec.maturity) :
    List.Chain' (· < ·) (build spec) ∧
    (build spec).getLast? = some spec.maturity := by
  obtain ⟨hnd, hmem, hsorted, hbound⟩ := build_facts spec hv1 hv2
  have hle : ∀ x ∈ build spec, x ≤ spec.maturity := by
    intro x hx
    rcases hbound x hx with h | h | h
    · exact h
    · exact hfc x h
    · exact hlc x h
  constructor
  · have hpl : List.Pairwise (· < ·) (build spec) := by
      have hand := List.Pairwise.and hsorted hnd
      exact hand.imp fun hab => lt_of_le_of_ne hab.1 hab.2
    exact hpl.chain'
  · exact sorted_getLast?_eq hsorted hmem hle hnd

/-- Witness for C6's amended statement on a concrete one-period bond. -/
theorem C6_witness :
    List.Chain' (· < ·) (build cwspec) ∧
    (build cwspec).getLast? = some cwspec.maturity :=
  C6_schedule_strictly_increasing cwspec (by decide) (by decide) (by decide)
    (fun d h => nomatch h) (fun d h => nomatch h)

/-! ## Claim C8 -/

theorem flowsAux_coupon_sum (spec : BondSpec) (lastD : Option Date) :
    ∀ s : List Date,
      (((RegularCouponCalculator.flowsAux spec lastD s).filter
        (fun c => c.kind = .coupon)).map (fun c => c.amount)).sum =
      (s.length : ℚ) * (spec.face * spec.coupon_rate / (spec.frequency.value : ℚ)) := by
  intro s
  induction s with
  | nil => simp [RegularCouponCalculator.flowsAux]
  | cons dt rest ih =>
    by_cases h : some dt = lastD <;>
      simp [RegularCouponCalculator.flowsAux, h, ih] <;> push_cast <;> ring

theorem flowsAux_red_sum (spec : BondSpec) (lastD : Option Date) :
    ∀ s : List Date,
      (((RegularCouponCalculator.flowsAux spec lastD s).filter
        (fun c => c.kind = .redemption)).map (fun c => c.amount)).sum =
      ((s.countP (fun dt => some dt = lastD)) : ℚ) * spec.face := by
  intro s
  induction s with
  | nil => simp [RegularCouponCalculator.flowsAux]
  | cons dt rest ih =>
    by_cases h : some dt = lastD <;>
      simp [RegularCouponCalculator.flowsAux, List.countP_cons, h, ih] <;>
      push_cast <;> ring

theorem countP_eq_one_of_nodup {l : List Date} {a : Date}
    (hnd : l.Nodup) (hm : a ∈ l) :
    l.countP (fun x => some x = some a) = 1 := by
  induction l with
  | nil => cases hm
  | cons b t ih =>
    rw [List.countP_cons]
    rcases List.mem_cons.mp hm with rfl | hmt
    · have hnotin : a ∉ t := (List.nodup_cons.mp hnd).1
      have hz : t.countP (fun x => some x = some a) = 0 := by
        rw [List.countP_eq_zero]
        intro x hx
        simp only [decide_eq_true_eq, Option.some.injEq]
        exact fun hxa => hnotin (hxa ▸ hx)
      simp only [Option.some.injEq] at hz
      simp [hz]
    · have hrec := ih (List.nodup_cons.mp hnd).2 hmt
      have hba : ¬ (b = a) := fun h => (List.nodup_cons.mp hnd).1 (h ▸ hmt)
      simp only [Option.some.injEq] at hrec
      simp [hrec, hba]

/-- C8: for a valid regular-coupon spec with a schedule of N dates, the sum
of the coupon cashflow amounts plus the redemption amount equals
`face + face*coupon_rate*(N/frequency)` (exactly, in exact arithmetic). -/
theorem C8_regular_cashflow_sum (spec : BondSpec)
    (ht : spec.bond_type = .REGULAR)
    (hv1 : 1 ≤ spec.maturity.month) (hv2 : spec.maturity.month ≤ 12) :
    (((RegularCouponCalculator.cashflows spec).filter
        (fun c => c.kind = .coupon)).map (fun c => c.amount)).sum +
    (((RegularCouponCalculator.cashflows spec).filter
        (fun c => c.kind = .redemption)).map (fun c => c.amount)).sum =
    spec.face + spec.face * spec.coupon_rate *
      (((build spec).length : ℚ) / (spec.frequency.value : ℚ)) := by
  obtain ⟨hnd, hmem, _, _⟩ := build_facts spec hv1 hv2
  obtain ⟨L, hL⟩ : ∃ L, (build spec).getLast? = some L := by
    cases hsched : (build spec) with
    | nil => rw [hsched] at hmem; cases hmem
    | cons a t =>
      exact ⟨(a :: t).getLast (by simp), List.getLast?_eq_getLast _ (by simp)⟩
  have hLmem : L ∈ build spec := by
    rcases hbs : build spec with _ | ⟨a, t⟩
    · rw [hbs] at hL; simp at hL
    · rw [hbs] at hL
      rw [List.getLast?_eq_getLast _ (by simp)] at hL
      simp at hL
      rw [← hL]
      exact List.getLast_mem _
  unfold RegularCouponCalculator.cashflows
  have hperm : List.Perm
      ((RegularCouponCalculator.flowsAux spec (build spec).getLast?
        (build spec)).insertionSort (fun a b => a.date ≤ b.date))
      (RegularCouponCalculator.flowsAux spec (build spec).getLast? (build spec)) :=
    List.perm_insertionSort _ _
  have hsum : ∀ (p : Cashflow → Bool),
      ((((RegularCouponCalculator.flowsAux spec (build spec).getLast?
        (build spec)).insertionSort (fun a b => a.date ≤ b.date)).filter p).map
          (fun c => c.amount)).sum =
      (((RegularCouponCalculator.flowsAux spec (build spec).getLast?
        (build spec)).filter p).map (fun c => c.amount)).sum :=
    fun p => ((hperm.filter p).map (fun c => c.amount)).sum_eq
  rw [hsum, hsum, flowsAux_coupon_sum, flowsAux_red_sum, hL]
  rw [countP_eq_one_of_nodup hnd hLmem]
  push_cast
  ring

/-- Witness for C8 on a concrete two-date schedule. -/
theorem C8_witness :
    (((RegularCouponCalculator.cashflows c7spec).filter
        (fun c => c.kind = .coupon)).map (fun c => c.amount)).sum +
    (((RegularCouponCalculator.cashflows c7spec).filter
        (fun c => c.kind = .redemption)).map (fun c => c.amount)).sum =
    c7spec.face + c7spec.face * c7spec.coupon_rate *
      (((build c7spec).length : ℚ) / (c7spec.frequency.value : ℚ)) :=
  C8_regular_cashflow_sum c7spec rfl (by decide) (by decide)

/-! ## Claim C9 -/

/-- The bond exhibiting the `nextCouponDate` defect: its issue date is well
before settlement, so the generated cashflows contain a coupon dated before
settlement (2024-08-01 ≤ settlement 2024-12-01). -/
def c9spec : BondSpec :=
  { settlement := ⟨2024, 12, 1⟩, maturity := ⟨2025, 8, 1⟩,
    issue_date := some ⟨2024, 2, 1⟩, face := 100, coupon_rate := 1/20,
    frequency := .SEMI_ANNUAL, day_count := .ACT_360, bond_type := .REGULAR }

/-- C9 is a code bug: `pricing_result_to_response` selects the FIRST
coupon-kind cashflow of the list with no date filter (settlement is not even
a parameter), although its own comment and the spec say "first future
cashflow".  On `c9spec`'s real cashflows the response's `nextCouponDate` is
2024-08-01 — a date at or before settlement — while the first future coupon
(the claim's and spec's selector, `firstFutureCouponDate`) is 2025-02-01. -/
theorem C9_nextCouponDate_not_future :
    (pricing_result_to_response ⟨100, 100, 0, 1/20⟩
      (some (RegularCouponCalculator.cashflows c9spec)) "2025.10").nextCouponDate =
        some ⟨2024, 8, 1⟩ ∧
    firstFutureCouponDate c9spec.settlement (RegularCouponCalculator.cashflows c9spec) =
      some ⟨2025, 2, 1⟩ ∧
    (⟨2024, 8, 1⟩ : Date) ≤ c9spec.settlement ∧
    c9spec.settlement < c9spec.maturity := by
  have hb : build c9spec = [⟨2024, 8, 1⟩, ⟨2025, 2, 1⟩, ⟨2025, 8, 1⟩] := by
    simp +decide [build, buildLoop, subMonths, c9spec]
  have hcf : RegularCouponCalculator.cashflows c9spec =
      [⟨⟨2024, 8, 1⟩, c9spec.face * c9spec.coupon_rate / (c9spec.frequency.value : ℚ), .coupon⟩,
       ⟨⟨2025, 2, 1⟩, c9spec.face * c9spec.coupon_rate / (c9spec.frequency.value : ℚ), .coupon⟩,
       ⟨⟨2025, 8, 1⟩, c9spec.face * c9spec.coupon_rate / (c9spec.frequency.value : ℚ), .coupon⟩,
       ⟨⟨2025, 8, 1⟩, c9spec.face, .redemption⟩] := by
    simp only [RegularCouponCalculator.cashflows]
    rw [hb]
    rfl
  rw [hcf]
  refine ⟨?_, ?_, by decide, by decide⟩
  · rfl
  · rfl
